import Mathlib

/-!
A shallow embedding of the medtracker repository's adherence calculator,
external drug-info gateway and HTTP request handlers, with theorems about
their contracts.

Modelling conventions:
* Python `datetime.date` values are embedded as their proleptic-Gregorian
  ordinal numbers (`Int`): `datetime.date` is order-isomorphic to a range of
  integers via `date.toordinal`, comparison of dates is comparison of
  ordinals, and `(a - b).days` is the ordinal difference.
* Python `datetime` timestamps are a date ordinal plus seconds-of-day.
* Percentages are rationals; `round(x, 2)` is `round2`.
* Fallible Python code returns `Except`; an uncaught Python exception in a
  request handler is an `Except.error` of `PyExn`.
* `medtrackerapp/models.py` and `medtrackerapp/services.py` are not part of
  the provided sources (only their tests and callers are), so the calculator
  and the drug-info service are modelled from the specification, as marked
  in their doc comments.
-/

deriving instance DecidableEq for Except

namespace MedTracker

/-- Medication record: the fields relevant to the calculator and gateway
(`models.Medication`). -/
structure Medication where
  id : Nat
  name : String
  dosage_mg : Int
  prescribed_per_day : Int
deriving DecidableEq

/-- Timestamp of a dose log: proleptic-Gregorian ordinal of the calendar
date plus seconds within the day.  `taken_at.date()` in Python is the `day`
component. -/
structure Timestamp where
  day : Int
  sec : Nat
deriving DecidableEq

/-- Ascending order on timestamps (lexicographic on date then time of day). -/
def Timestamp.le (a b : Timestamp) : Bool :=
  decide (a.day < b.day ∨ (a.day = b.day ∧ a.sec ≤ b.sec))

/-- DoseLog record (`models.DoseLog`): `medication` is the id of the owning
medication (required foreign key). -/
structure DoseLog where
  id : Nat
  medication : Nat
  taken_at : Timestamp
  was_taken : Bool
deriving DecidableEq

/-- Rounding to two decimal places, `round(x, 2)` on an exact rational. -/
def round2 (q : ℚ) : ℚ := ((round (q * 100) : ℤ) : ℚ) / 100

/-- Modelled from the spec: `Medication.expected_doses` (models.py is not
under src/).  Precondition `days >= 0` and `prescribed_per_day > 0`;
violating either fails with an "invalid input" `ValueError` instead of
returning a value; otherwise the result is `days * prescribed_per_day`. -/
def expected_doses (m : Medication) (days : Int) : Except String Int :=
  if days < 0 then
    .error "invalid input: days must be non-negative"
  else if m.prescribed_per_day ≤ 0 then
    .error "invalid input: prescribed_per_day must be positive"
  else
    .ok (days * m.prescribed_per_day)

/-- Count of dose-log entries belonging to medication `m` with
`was_taken = true` whose `taken_at` date lies within `[s, e]` inclusive. -/
def takenInRange (m : Medication) (logs : List DoseLog) (s e : Int) : Nat :=
  (logs.filter (fun l =>
    l.medication == m.id && l.was_taken &&
      decide (s ≤ l.taken_at.day ∧ l.taken_at.day ≤ e))).length

/-- Modelled from the spec: `Medication.adherence_rate_over_period`
(models.py is not under src/).  Fails with an "invalid range" error when
`start_date > end_date`; computes `expected = expected_doses((end_date -
start_date).days + 1)`, propagating its validation error; returns `0.0`
when `expected == 0` (defensive branch, short-circuiting the division);
otherwise the taken count over `expected`, times 100, rounded to two
decimal places. -/
def adherence_rate_over_period (m : Medication) (logs : List DoseLog)
    (s e : Int) : Except String ℚ :=
  if e < s then
    .error "invalid range: start_date must not be after end_date"
  else
    match expected_doses m (e - s + 1) with
    | .error msg => .error msg
    | .ok expected =>
        if expected = 0 then .ok 0
        else .ok (round2 ((takenInRange m logs s e : ℚ) * 100 / (expected : ℚ)))

/-- Count of medication `m`'s dose-log entries with `was_taken = true`. -/
def takenCount (m : Medication) (logs : List DoseLog) : Nat :=
  (logs.filter (fun l => l.medication == m.id && l.was_taken)).length

/-- Expected dose count for the default trailing window of
`adherence_rate`.  Modelled from the spec: the window is the fixed
recent-window heuristic covering all of the medication's logged doses, so
the expected count for the window is the number of logged doses. -/
def windowExpected (m : Medication) (logs : List DoseLog) : Nat :=
  (logs.filter (fun l => l.medication == m.id)).length

/-- Modelled from the spec: `Medication.adherence_rate` (models.py is not
under src/).  Ratio of taken dose logs in the evaluated window to the
expected doses for that window, times 100, rounded to two decimal places;
returns `0.0` instead of dividing when the expected count is 0. -/
def adherence_rate (m : Medication) (logs : List DoseLog) : ℚ :=
  if windowExpected m logs = 0 then 0
  else round2 ((takenCount m logs : ℚ) * 100 / (windowExpected m logs : ℚ))

/-! External drug-info service and gateway. -/

/-- Python value appearing in the JSON-like dictionaries exchanged between
the gateway and the HTTP layer: a string or a list of strings. -/
inductive PyVal where
  | vStr (s : String)
  | vList (l : List String)
deriving DecidableEq

/-- Python dictionary with string keys, as an association list. -/
abbrev PyDict := List (String × PyVal)

/-- Python truthiness of a `PyVal`: the empty string and the empty list are
falsy. -/
def truthy : PyVal → Bool
  | .vStr s => !(s == "")
  | .vList l => !l.isEmpty

/-- Lookup `d.get(k)` on a Python dictionary. -/
def dictGet (d : PyDict) (k : String) : Option PyVal :=
  (d.find? (fun kv => kv.1 == k)).map (fun kv => kv.2)

/-- The `openfda` sub-object of an OpenFDA result entry. -/
structure OpenFda where
  generic_name : List String
  manufacturer_name : List String
deriving DecidableEq

/-- One entry of the `results` array of an OpenFDA response. -/
structure ResultEntry where
  openfda : OpenFda
  purpose : List String
  warnings : List String
deriving DecidableEq

/-- Response of the third-party formulary API: HTTP status code and parsed
result entries. -/
structure ApiResponse where
  status_code : Nat
  results : List ResultEntry
deriving DecidableEq

/-- Transport outcome of `requests.get`: either a response or a raised
network error (message of the exception). -/
abbrev Transport := Except String ApiResponse

namespace DrugInfoService

/-- Modelled from the spec: `DrugInfoService.get_drug_info` (services.py is
not under src/).  Fails with an "invalid argument" error for an empty name;
performs a single request (a raised network error propagates); fails with a
"service error" when the response status is not success or the result set
is empty; on success extracts generic name, manufacturer, purpose and
warnings from the first result entry. -/
def get_drug_info (drug_name : String) (t : Transport) : Except String PyDict :=
  if drug_name = "" then
    .error "invalid argument: drug name must not be empty"
  else
    match t with
    | .error e => .error e
    | .ok resp =>
        if resp.status_code ≠ 200 then
          .error "service error: request failed"
        else
          match resp.results with
          | [] => .error "service error: no results found"
          | entry :: _ =>
              .ok [("name", .vStr (entry.openfda.generic_name.headD "")),
                   ("manufacturer", .vStr (entry.openfda.manufacturer_name.headD "")),
                   ("purpose", .vList entry.purpose),
                   ("warnings", .vList entry.warnings)]

end DrugInfoService

/-- Modelled from the spec: `Medication.fetch_external_info` (models.py is
not under src/).  Delegates to `DrugInfoService.get_drug_info` with the
medication's name; returns the lookup's structured result unchanged on
success, and catches any exception the lookup raises, returning the tagged
error object `{"error": <message>}` instead of propagating. -/
def fetch_external_info (m : Medication) (t : Transport) : PyDict :=
  match DrugInfoService.get_drug_info m.name t with
  | .ok data => data
  | .error e => [("error", .vStr e)]

/-! HTTP request handlers (`medtrackerapp/views.py`). -/

/-- Python exception escaping a request handler. -/
inductive PyExn where
  | typeError (msg : String)
  | valueError (msg : String)
deriving DecidableEq

/-- Handler `MedicationViewSet.get_external_info` (views.py lines 31-56),
applied to the dictionary returned by `fetch_external_info` on the resolved
medication: status 502 with that dictionary as body when it has a truthy
"error" entry, status 200 with that dictionary as body otherwise. -/
def get_external_info (data : PyDict) : Nat × PyDict :=
  if (dictGet data "error").elim false truthy then (502, data)
  else (200, data)

/-- All-digit test for a character list. -/
def allDigits (cs : List Char) : Bool := !cs.isEmpty && cs.all Char.isDigit

/-- Numeric value of a list of decimal digit characters. -/
def digitsToNat (cs : List Char) : Nat :=
  cs.foldl (fun n c => 10 * n + (c.toNat - 48)) 0

/-- Whitespace trimming on a character list (both ends). -/
def trimChars (cs : List Char) : List Char :=
  ((cs.dropWhile Char.isWhitespace).reverse.dropWhile Char.isWhitespace).reverse

/-- Python `int(s)` on a string: optional surrounding whitespace, optional
sign, then a non-empty run of decimal digits; `none` models a raised
`ValueError`.  (Underscore digit separators and non-ASCII digits are not
modelled.) -/
def pyIntParse (s : String) : Option Int :=
  match trimChars s.data with
  | '-' :: rest =>
      if allDigits rest then some (-(digitsToNat rest : Int)) else none
  | '+' :: rest =>
      if allDigits rest then some (digitsToNat rest : Int) else none
  | cs =>
      if allDigits cs then some (digitsToNat cs : Int) else none

/-- Response of the expected-doses endpoint: 200 with the success body, or
400 with an error body. -/
inductive DosesResponse where
  | ok (medication_id : Nat) (days : Int) (doses : Int)
  | badRequest (error : String)
deriving DecidableEq

/-- HTTP status code of a `DosesResponse`. -/
def DosesResponse.status : DosesResponse → Nat
  | .ok _ _ _ => 200
  | .badRequest _ => 400

/-- Handler `MedicationViewSet.expected_doses_view` (views.py lines 59-102)
on a resolved medication and the raw `days` query parameter: a missing,
unparseable or non-positive parameter raises a `ValueError` caught by the
handler itself (400 with the fixed message); a `ValueError` from
`expected_doses` becomes 400 with that message; otherwise 200 with
`{medication_id, days, expected_doses}`. -/
def expected_doses_view (m : Medication) (daysParam : Option String) :
    DosesResponse :=
  match daysParam with
  | none => .badRequest "Invalid \x27days\x27 parameter"
  | some s =>
      match pyIntParse s with
      | none => .badRequest "Invalid \x27days\x27 parameter"
      | some days =>
          if days ≤ 0 then .badRequest "Invalid \x27days\x27 parameter"
          else
            match expected_doses m days with
            | .error e => .badRequest e
            | .ok doses => .ok m.id days doses

/-- Leap-year test of the Gregorian calendar. -/
def isLeap (y : Nat) : Bool := (y % 4 == 0 && y % 100 != 0) || y % 400 == 0

/-- Number of days in month `m` of year `y`. -/
def daysInMonth (y m : Nat) : Nat :=
  if m = 2 then (if isLeap y then 29 else 28)
  else if m = 4 ∨ m = 6 ∨ m = 9 ∨ m = 11 then 30
  else 31

/-- Validity of a `year-month-day` triple as a `datetime.date`. -/
def validDate (y m d : Nat) : Bool :=
  decide (1 ≤ y) && decide (y ≤ 9999) && decide (1 ≤ m) && decide (m ≤ 12) &&
    decide (1 ≤ d) && decide (d ≤ daysInMonth y m)

/-- Proleptic-Gregorian day number of a valid `year-month-day` triple
(`datetime.date.toordinal` up to a constant offset; only differences and
order of ordinals are relevant to the embedding). -/
def toOrdinal (y m d : Nat) : Int :=
  let yy : Int := if m ≤ 2 then (y : Int) - 1 else (y : Int)
  let mm : Int := if m ≤ 2 then (m : Int) + 12 else (m : Int)
  365 * yy + yy / 4 - yy / 100 + yy / 400 + (153 * (mm - 3) + 2) / 5 + (d : Int)

/-- Splitting a character list on the dash character. -/
def splitDash (cs : List Char) : List (List Char) :=
  cs.foldr
    (fun c acc =>
      if c = '-' then [] :: acc
      else
        match acc with
        | g :: gs => (c :: g) :: gs
        | [] => [[c]])
    [[]]

/-- Match of Django's date regular expression
`(?P<year>\d{4})-(?P<month>\d{1,2})-(?P<day>\d{1,2})$` against a string,
yielding the numeric year, month and day on success. -/
def matchDateRe (s : String) : Option (Nat × Nat × Nat) :=
  match splitDash s.data with
  | [ys, ms, ds] =>
      if ys.length = 4 && allDigits ys &&
          decide (1 ≤ ms.length) && decide (ms.length ≤ 2) && allDigits ms &&
          decide (1 ≤ ds.length) && decide (ds.length ≤ 2) && allDigits ds then
        some (digitsToNat ys, digitsToNat ms, digitsToNat ds)
      else none
  | _ => none

/-- Django's `django.utils.dateparse.parse_date` applied to
`request.query_params.get(...)`: raises a `TypeError` when the parameter is
absent (`parse_date(None)`); returns `None` for a string the date regular
expression does not match; raises a `ValueError` for a well-formatted
string that is not a valid calendar date; otherwise returns the date (as
its ordinal). -/
def parse_date : Option String → Except PyExn (Option Int)
  | none => .error (.typeError "expected string or bytes-like object")
  | some s =>
      match matchDateRe s with
      | none => .ok none
      | some (y, m, d) =>
          if validDate y m d then .ok (some (toOrdinal y m d))
          else .error (.valueError "day is out of range for month")

/-- Ascending order on dose logs by `taken_at`. -/
def logLe (a b : DoseLog) : Bool := Timestamp.le a.taken_at b.taken_at

/-- Handler `DoseLogViewSet.filter_by_date` (views.py lines 124-156) on the
raw `start` and `end` query parameters and the stored dose logs: parses
both parameters with `parse_date` (an exception there escapes the
handler); if either parse result is `None`, responds 400 with an error
body (`none` payload); otherwise responds 200 with the logs whose
`taken_at` date lies in the inclusive range, ordered ascending by
`taken_at`. -/
def filter_by_date (startP endP : Option String) (logs : List DoseLog) :
    Except PyExn (Nat × Option (List DoseLog)) :=
  match parse_date startP with
  | .error ex => .error ex
  | .ok s =>
      match parse_date endP with
      | .error ex => .error ex
      | .ok e =>
          match s, e with
          | some sd, some ed =>
              .ok (200, some ((logs.filter (fun l =>
                decide (sd ≤ l.taken_at.day ∧ l.taken_at.day ≤ ed))).mergeSort logLe))
          | _, _ => .ok (400, none)

/-! Concrete fixtures, mirroring the repository's test data. -/

/-- Fixture: the base medication of the test suite (Aspirin, 100mg, 2 per
day). -/
def demoMed : Medication := ⟨1, "Aspirin", 100, 2⟩

/-- Fixture: three dose logs on consecutive days (ordinals 0, 1, 2) with
taken flags true, false, true, as in `test_adherence_rate_over_period_valid`. -/
def demoLogs : List DoseLog :=
  [⟨1, 1, ⟨2, 28800⟩, true⟩, ⟨2, 1, ⟨1, 28800⟩, false⟩, ⟨3, 1, ⟨0, 28800⟩, true⟩]

/-- Fixture: two dose logs, both taken, as in
`test_adherence_rate_all_doses_taken`. -/
def allTakenLogs : List DoseLog :=
  [⟨1, 1, ⟨0, 3600⟩, true⟩, ⟨2, 1, ⟨1, 7200⟩, true⟩]

/-- Fixture: dose logs on and around May 1-3 of 2024 (date ordinals), listed
out of order, for the date-range filter. -/
def mayLogs : List DoseLog :=
  [⟨1, 1, ⟨739315, 100⟩, true⟩, ⟨2, 1, ⟨739313, 200⟩, false⟩,
   ⟨3, 1, ⟨739312, 300⟩, true⟩, ⟨4, 1, ⟨739314, 400⟩, true⟩]

/-- Fixture: the OpenFDA result entry used by `test_get_drug_info_success`. -/
def demoEntry : ResultEntry :=
  ⟨⟨["ibuprofen"], ["Bayer"]⟩, ["Pain relief"], ["Do not exceed 6 pills per day"]⟩

/-! Theorems. -/

/-- Reproduction of `test_adherence_rate_over_period_valid`: 2 doses
prescribed per day, taken flags true, false, true over a 3-day inclusive
range gives a rate of 33.33 (2 taken of 6 expected). -/
theorem adherence_rate_over_period_example :
    adherence_rate_over_period demoMed demoLogs 0 2 = .ok (3333 / 100) := by
  norm_num [adherence_rate_over_period, expected_doses, takenInRange, demoMed,
    demoLogs, round2, round_eq]

/-- C3: for every integer `days ≥ 0` and every medication with
`prescribed_per_day > 0`, `expected_doses days` returns exactly
`days * prescribed_per_day`, and in particular returns 0 when `days = 0`. -/
theorem expected_doses_valid_formula (m : Medication) (days : Int)
    (hd : 0 ≤ days) (hp : 0 < m.prescribed_per_day) :
    expected_doses m days = .ok (days * m.prescribed_per_day) ∧
      (days = 0 → expected_doses m days = .ok 0) := by
  constructor
  · simp [expected_doses, hd.not_lt, hp.not_le]
  · intro h
    subst h
    simp [expected_doses, hp.not_le]

/-- Witness for C3: `prescribed_per_day = 3` and `days = 5` gives 15, and
`days = 0` gives 0 for the base medication. -/
theorem expected_doses_valid_formula_witness :
    expected_doses ⟨2, "Ibuprofen", 200, 3⟩ 5 = .ok 15 ∧
      expected_doses demoMed 0 = .ok 0 := by
  constructor
  · have h := (expected_doses_valid_formula ⟨2, "Ibuprofen", 200, 3⟩ 5
      (by decide) (by decide)).1
    simpa using h
  · exact (expected_doses_valid_formula demoMed 0 (by decide) (by decide)).2 rfl

/-- C4: the calculator rejects precondition violations with an error
instead of returning a value: `expected_doses` fails with an
"invalid input" error for negative `days` and for a non-positive
`prescribed_per_day`, and `adherence_rate_over_period` fails with an
"invalid range" error when `start_date > end_date`. -/
theorem calculator_rejects_invalid_inputs (m : Medication)
    (logs : List DoseLog) (days s e : Int) :
    (days < 0 →
      expected_doses m days = .error "invalid input: days must be non-negative") ∧
    (m.prescribed_per_day ≤ 0 →
      ∃ msg, expected_doses m days = .error msg ∧
        (msg = "invalid input: days must be non-negative" ∨
         msg = "invalid input: prescribed_per_day must be positive")) ∧
    (e < s →
      adherence_rate_over_period m logs s e =
        .error "invalid range: start_date must not be after end_date") := by
  refine ⟨fun h => by simp [expected_doses, h], fun h => ?_, fun h => by
    simp [adherence_rate_over_period, h]⟩
  by_cases hd : days < 0
  · exact ⟨_, by simp [expected_doses, hd], Or.inl rfl⟩
  · exact ⟨_, by simp [expected_doses, hd, h], Or.inr rfl⟩

/-- Witness for C4: `expected_doses (-1)` and a zero schedule both error,
and a range with start after end errors. -/
theorem calculator_rejects_invalid_inputs_witness :
    (expected_doses demoMed (-1) =
      .error "invalid input: days must be non-negative") ∧
    (∃ msg, expected_doses ⟨3, "Ibuprofen", 200, 0⟩ 3 = .error msg ∧
      (msg = "invalid input: days must be non-negative" ∨
       msg = "invalid input: prescribed_per_day must be positive")) ∧
    (adherence_rate_over_period demoMed [] 10 1 =
      .error "invalid range: start_date must not be after end_date") :=
  ⟨(calculator_rejects_invalid_inputs demoMed [] (-1) 0 0).1 (by decide),
   (calculator_rejects_invalid_inputs ⟨3, "Ibuprofen", 200, 0⟩ [] 3 0 0).2.1
     (by decide),
   (calculator_rejects_invalid_inputs demoMed [] 0 10 1).2.2 (by decide)⟩

/-- C1: for every medication with `prescribed_per_day > 0` and dates with
`start_date ≤ end_date`, `adherence_rate_over_period` computes
`expected = expected_doses((end_date - start_date).days + 1)` and returns
the count of the medication's taken dose logs dated within the inclusive
range, divided by `expected`, times 100, rounded to 2 decimal places;
whenever `expected` resolves to 0 it returns exactly 0 without dividing. -/
theorem adherence_rate_over_period_formula (m : Medication)
    (logs : List DoseLog) (s e : Int)
    (hp : 0 < m.prescribed_per_day) (hse : s ≤ e) :
    ∃ expected : Int,
      expected_doses m (e - s + 1) = .ok expected ∧
      adherence_rate_over_period m logs s e =
        .ok (if expected = 0 then 0
             else round2 ((takenInRange m logs s e : ℚ) * 100 / (expected : ℚ))) := by
  have hd : (0 : ℤ) ≤ e - s + 1 := by omega
  refine ⟨(e - s + 1) * m.prescribed_per_day, ?_, ?_⟩
  · simp [expected_doses, hd.not_lt, hp.not_le]
  · rw [adherence_rate_over_period, if_neg hse.not_lt]
    rw [expected_doses, if_neg hd.not_lt, if_neg hp.not_le]
    split_ifs <;> simp_all

/-- Witness for C1: the base medication over the 3-day range of
`test_adherence_rate_over_period_valid`. -/
theorem adherence_rate_over_period_formula_witness :
    ∃ expected : Int,
      expected_doses demoMed (2 - 0 + 1) = .ok expected ∧
      adherence_rate_over_period demoMed demoLogs 0 2 =
        .ok (if expected = 0 then 0
             else round2 ((takenInRange demoMed demoLogs 0 2 : ℚ) * 100 / (expected : ℚ))) :=
  adherence_rate_over_period_formula demoMed demoLogs 0 2 (by decide) (by decide)

/-- C9: `adherence_rate` is the count of taken dose logs in the evaluated
window over the expected doses for that window, times 100, rounded to 2
decimal places, with 0 returned instead of dividing when the expected count
is 0; in particular it returns 100 when all of the medication's logged
doses were taken (and there is at least one). -/
theorem adherence_rate_contract (m : Medication) (logs : List DoseLog) :
    adherence_rate m logs =
      (if windowExpected m logs = 0 then 0
       else round2 ((takenCount m logs : ℚ) * 100 / (windowExpected m logs : ℚ))) ∧
    ((∀ l ∈ logs, l.medication = m.id → l.was_taken = true) →
      windowExpected m logs ≠ 0 → adherence_rate m logs = 100) := by
  refine ⟨rfl, fun hall h0 => ?_⟩
  have hcount : takenCount m logs = windowExpected m logs := by
    unfold takenCount windowExpected
    congr 1
    apply List.filter_congr
    intro l hl
    cases hmed : (l.medication == m.id) with
    | false => simp [hmed]
    | true => simp [hmed, hall l hl (by simpa using hmed)]
  have hne : ((windowExpected m logs : ℚ)) ≠ 0 := by
    exact_mod_cast h0
  rw [adherence_rate, if_neg h0, hcount, mul_comm, mul_div_assoc,
    div_self hne, mul_one]
  norm_num [round2, round_eq]

/-- Witness for C9: two logs, both taken, give a rate of 100. -/
theorem adherence_rate_contract_witness :
    adherence_rate demoMed allTakenLogs = 100 :=
  (adherence_rate_contract demoMed allTakenLogs).2 (by decide) (by decide)

/-- C5: `fetch_external_info` returns the lookup's structured result
unchanged when the lookup succeeds, and for every failure the lookup
raises it catches the exception and returns the tagged error object
`{"error": <message>}` rather than propagating. -/
theorem fetch_external_info_contract (m : Medication) (t : Transport) :
    (∀ d, DrugInfoService.get_drug_info m.name t = .ok d →
      fetch_external_info m t = d) ∧
    (∀ e, DrugInfoService.get_drug_info m.name t = .error e →
      fetch_external_info m t = [("error", .vStr e)]) := by
  constructor <;> intro x hx <;> simp [fetch_external_info, hx]

/-- Witness for C5: a successful lookup is passed through unchanged, and a
raised network error comes back as a tagged error object. -/
theorem fetch_external_info_contract_witness :
    fetch_external_info demoMed (.ok ⟨200, [demoEntry]⟩) =
      [("name", .vStr "ibuprofen"), ("manufacturer", .vStr "Bayer"),
       ("purpose", .vList ["Pain relief"]),
       ("warnings", .vList ["Do not exceed 6 pills per day"])] ∧
    fetch_external_info demoMed (.error "API dead") =
      [("error", .vStr "API dead")] :=
  ⟨(fetch_external_info_contract demoMed (.ok ⟨200, [demoEntry]⟩)).1 _ (by decide),
   (fetch_external_info_contract demoMed (.error "API dead")).2 _ (by decide)⟩

/-- C6: `DrugInfoService.get_drug_info` fails with an "invalid argument"
error for an empty name, fails with a "service error" for a non-success
response status and for an empty result set, and on success returns a
structure whose name (generic name), manufacturer, purpose and warnings
come from the first result entry. -/
theorem get_drug_info_contract (drug_name : String) (t : Transport)
    (resp : ApiResponse) :
    (drug_name = "" → DrugInfoService.get_drug_info drug_name t =
      .error "invalid argument: drug name must not be empty") ∧
    (drug_name ≠ "" → t = .ok resp → resp.status_code ≠ 200 →
      DrugInfoService.get_drug_info drug_name t =
        .error "service error: request failed") ∧
    (drug_name ≠ "" → t = .ok resp → resp.status_code = 200 →
      resp.results = [] →
      DrugInfoService.get_drug_info drug_name t =
        .error "service error: no results found") ∧
    (∀ entry rest, drug_name ≠ "" → t = .ok resp → resp.status_code = 200 →
      resp.results = entry :: rest →
      DrugInfoService.get_drug_info drug_name t =
        .ok [("name", .vStr (entry.openfda.generic_name.headD "")),
             ("manufacturer", .vStr (entry.openfda.manufacturer_name.headD "")),
             ("purpose", .vList entry.purpose),
             ("warnings", .vList entry.warnings)]) := by
  refine ⟨fun h => by simp [DrugInfoService.get_drug_info, h],
    fun h ht hs => ?_, fun h ht hs hr => ?_, fun entry rest h ht hs hr => ?_⟩
  · subst ht
    simp [DrugInfoService.get_drug_info, h, hs]
  · subst ht
    simp [DrugInfoService.get_drug_info, h, hs, hr]
  · subst ht
    simp [DrugInfoService.get_drug_info, h, hs, hr]

/-- Witness for C6: the mocked responses of the service test suite — the
empty name, a 500 status, an empty result set, and the successful
extraction from the first result entry. -/
theorem get_drug_info_contract_witness :
    DrugInfoService.get_drug_info "" (.ok ⟨200, [demoEntry]⟩) =
      .error "invalid argument: drug name must not be empty" ∧
    DrugInfoService.get_drug_info "ibuprofen" (.ok ⟨500, []⟩) =
      .error "service error: request failed" ∧
    DrugInfoService.get_drug_info "ibuprofen" (.ok ⟨200, []⟩) =
      .error "service error: no results found" ∧
    DrugInfoService.get_drug_info "ibuprofen" (.ok ⟨200, [demoEntry]⟩) =
      .ok [("name", .vStr (demoEntry.openfda.generic_name.headD "")),
           ("manufacturer", .vStr (demoEntry.openfda.manufacturer_name.headD "")),
           ("purpose", .vList demoEntry.purpose),
           ("warnings", .vList demoEntry.warnings)] :=
  ⟨(get_drug_info_contract "" (.ok ⟨200, [demoEntry]⟩) ⟨200, [demoEntry]⟩).1 rfl,
   (get_drug_info_contract "ibuprofen" (.ok ⟨500, []⟩) ⟨500, []⟩).2.1
     (by decide) rfl (by decide),
   (get_drug_info_contract "ibuprofen" (.ok ⟨200, []⟩) ⟨200, []⟩).2.2.1
     (by decide) rfl rfl rfl,
   (get_drug_info_contract "ibuprofen" (.ok ⟨200, [demoEntry]⟩)
       ⟨200, [demoEntry]⟩).2.2.2 demoEntry [] (by decide) rfl rfl rfl⟩

/-- C10: the external-info endpoint chooses between 200 and 502 only by
the truthiness of the "error" entry of the dictionary returned by
`fetch_external_info`: an absent or falsy "error" entry (including an
empty-string message) gives 200 with that dictionary as body, and a truthy
"error" value gives 502 with that dictionary as body. -/
theorem get_external_info_status_contract (data : PyDict) :
    ((dictGet data "error").elim false truthy = false →
      get_external_info data = (200, data)) ∧
    ((dictGet data "error").elim false truthy = true →
      get_external_info data = (502, data)) ∧
    (dictGet data "error" = none → get_external_info data = (200, data)) ∧
    (∀ v, dictGet data "error" = some v → truthy v = false →
      get_external_info data = (200, data)) ∧
    (dictGet data "error" = some (.vStr "") →
      get_external_info data = (200, data)) := by
  refine ⟨fun h => by simp [get_external_info, h],
    fun h => by simp [get_external_info, h],
    fun h => by simp [get_external_info, h],
    fun v hv htr => by simp [get_external_info, hv, htr],
    fun h => by simp [get_external_info, h, truthy]⟩

/-- Witness for C10: a truthy error message gives 502; a success-shaped
dictionary and a tagged error with an empty message both give 200. -/
theorem get_external_info_status_contract_witness :
    get_external_info [("error", .vStr "API dead")] =
      (502, [("error", .vStr "API dead")]) ∧
    get_external_info [("name", .vStr "Aspirin")] =
      (200, [("name", .vStr "Aspirin")]) ∧
    get_external_info [("error", .vStr "")] =
      (200, [("error", .vStr "")]) :=
  ⟨(get_external_info_status_contract [("error", .vStr "API dead")]).2.1
     (by decide),
   (get_external_info_status_contract [("name", .vStr "Aspirin")]).2.2.1
     (by decide),
   (get_external_info_status_contract [("error", .vStr "")]).2.2.2.2
     (by decide)⟩

/-- C7: the expected-doses endpoint on an existing medication answers 400
with an error body when the `days` parameter is missing, non-integer or
non-positive; answers 400 carrying the calculator's message when
`expected_doses` raises a validation error; and otherwise answers 200 with
`{medication_id, days, expected_doses}`. -/
theorem expected_doses_view_contract (m : Medication) (dp : Option String) :
    ((dp = none ∨ (∃ s, dp = some s ∧ pyIntParse s = none) ∨
        (∃ s days, dp = some s ∧ pyIntParse s = some days ∧ days ≤ 0)) →
      expected_doses_view m dp = .badRequest "Invalid \x27days\x27 parameter" ∧
        (expected_doses_view m dp).status = 400) ∧
    (∀ s days e, dp = some s → pyIntParse s = some days → 0 < days →
      expected_doses m days = .error e →
      expected_doses_view m dp = .badRequest e ∧
        (expected_doses_view m dp).status = 400) ∧
    (∀ s days v, dp = some s → pyIntParse s = some days → 0 < days →
      expected_doses m days = .ok v →
      expected_doses_view m dp = .ok m.id days v ∧
        (expected_doses_view m dp).status = 200) := by
  refine ⟨fun h => ?_, fun s days e hdp hparse hpos hexp => ?_,
    fun s days v hdp hparse hpos hexp => ?_⟩
  · rcases h with h | ⟨s, hdp, hparse⟩ | ⟨s, days, hdp, hparse, hle⟩
    · subst h
      exact ⟨rfl, rfl⟩
    · subst hdp
      refine ⟨?_, ?_⟩ <;> simp [expected_doses_view, hparse, DosesResponse.status]
    · subst hdp
      refine ⟨?_, ?_⟩ <;>
        simp [expected_doses_view, hparse, if_pos hle, DosesResponse.status]
  · subst hdp
    refine ⟨?_, ?_⟩ <;>
      simp [expected_doses_view, hparse, hpos.not_le, hexp, DosesResponse.status]
  · subst hdp
    refine ⟨?_, ?_⟩ <;>
      simp [expected_doses_view, hparse, hpos.not_le, hexp, DosesResponse.status]

/-- Witness for C7: a missing parameter, the literal "abc", "-3", a
zero-schedule medication with "5", and the successful "5" on the base
medication. -/
theorem expected_doses_view_contract_witness :
    (expected_doses_view demoMed none =
        .badRequest "Invalid \x27days\x27 parameter" ∧
      (expected_doses_view demoMed none).status = 400) ∧
    (expected_doses_view demoMed (some "abc") =
        .badRequest "Invalid \x27days\x27 parameter" ∧
      (expected_doses_view demoMed (some "abc")).status = 400) ∧
    (expected_doses_view demoMed (some "-3") =
        .badRequest "Invalid \x27days\x27 parameter" ∧
      (expected_doses_view demoMed (some "-3")).status = 400) ∧
    (expected_doses_view ⟨3, "Ibuprofen", 200, 0⟩ (some "5") =
        .badRequest "invalid input: prescribed_per_day must be positive" ∧
      (expected_doses_view ⟨3, "Ibuprofen", 200, 0⟩ (some "5")).status = 400) ∧
    (expected_doses_view demoMed (some "5") = .ok 1 5 10 ∧
      (expected_doses_view demoMed (some "5")).status = 200) :=
  ⟨(expected_doses_view_contract demoMed none).1 (Or.inl rfl),
   (expected_doses_view_contract demoMed (some "abc")).1
     (Or.inr (Or.inl ⟨"abc", rfl, by decide⟩)),
   (expected_doses_view_contract demoMed (some "-3")).1
     (Or.inr (Or.inr ⟨"-3", -3, rfl, by decide, by decide⟩)),
   (expected_doses_view_contract ⟨3, "Ibuprofen", 200, 0⟩ (some "5")).2.1
     "5" 5 _ rfl (by decide) (by decide) (by decide),
   (expected_doses_view_contract demoMed (some "5")).2.2
     "5" 5 10 rfl (by decide) (by decide) (by decide)⟩

/-- C2: counter-evidence — a request to the log filter endpoint with the
`start` parameter absent reaches `parse_date(None)`, which raises a
`TypeError` that escapes the handler (an unhandled server error), instead
of the documented 400 response. -/
theorem filter_by_date_missing_start_raises :
    filter_by_date none (some "2020-01-01") [] =
      .error (.typeError "expected string or bytes-like object") := rfl

/-- Transitivity of the ascending dose-log order. -/
theorem logLe_trans (a b c : DoseLog) :
    logLe a b = true → logLe b c = true → logLe a c = true := by
  simp only [logLe, Timestamp.le, decide_eq_true_eq]
  omega

/-- Totality of the ascending dose-log order. -/
theorem logLe_total (a b : DoseLog) : (logLe a b || logLe b a) = true := by
  simp only [logLe, Timestamp.le, Bool.or_eq_true, decide_eq_true_eq]
  omega

/-- C8: for every request to the log filter endpoint whose `start` and
`end` parameters parse as valid dates, the response has status 200 and
contains exactly the dose logs whose `taken_at` date falls within the
inclusive range, ordered ascending by `taken_at`. -/
theorem filter_by_date_valid_contract (startP endP : Option String)
    (logs : List DoseLog) (sd ed : Int)
    (hs : parse_date startP = .ok (some sd))
    (he : parse_date endP = .ok (some ed)) :
    ∃ out, filter_by_date startP endP logs = .ok (200, some out) ∧
      out.Perm (logs.filter (fun l =>
        decide (sd ≤ l.taken_at.day ∧ l.taken_at.day ≤ ed))) ∧
      List.Pairwise (fun a b => logLe a b = true) out := by
  refine ⟨_, ?_, List.mergeSort_perm _ _,
    List.sorted_mergeSort logLe_trans logLe_total _⟩
  simp [filter_by_date, hs, he]

/-- Witness for C8: the May 2024 logs filtered over May 1-3. -/
theorem filter_by_date_valid_contract_witness :
    ∃ out, filter_by_date (some "2024-05-01") (some "2024-05-03") mayLogs =
        .ok (200, some out) ∧
      out.Perm (mayLogs.filter (fun l =>
        decide (toOrdinal 2024 5 1 ≤ l.taken_at.day ∧
          l.taken_at.day ≤ toOrdinal 2024 5 3))) ∧
      List.Pairwise (fun a b => logLe a b = true) out :=
  filter_by_date_valid_contract (some "2024-05-01") (some "2024-05-03")
    mayLogs (toOrdinal 2024 5 1) (toOrdinal 2024 5 3) (by decide) (by decide)

end MedTracker
